/-
  Verification of the Labels-Service job lifecycle engine.

  Shallow embedding of the Python sources:
    app/services/label_print.py  (tabular exporter, template resolution, print pipeline)
    app/services/job_manager.py  (job table, submission, worker loop, retention sweep)

  Modelling conventions:
  * A label-data record (Python `Dict[str, Any]`) is an association list
    `Row = List (String × String)`; values are modelled by the string the CSV
    writer would emit for them.
  * `datetime` values are modelled as integers; `timedelta` subtraction is
    integer subtraction.
  * A Python dict keyed by job id is an association list in insertion order:
    a fresh key is appended at the end, lookup takes the first binding,
    `pop` removes the binding of that key.
  * Exceptions are `Except` values; an exception that escapes the worker loop
    (killing the worker task) is `Option.none`.
  * The filesystem is a list of paths (for existence checks) or an
    association list path ↦ contents (for the CSV writer); deletion that the
    OS refuses (the `OSError` branch) is driven by a `failSet` parameter.
-/

import Mathlib

namespace LabelsService

/-- One label-data record: field name ↦ rendered value. -/
abbrev Row := List (String × String)

/-! ## label_print.py : utility functions -/

/-- One step of `_collect_fieldnames`'s inner loop over the keys of a row:
`seen` (a set, modelled by a list) and `order` are updated together exactly as
in the source (`if k in exclude: continue; if k not in seen: seen.add(k);
order.append(k)`). -/
def collectStep (exclude : List String) (acc : List String × List String)
    (k : String) : List String × List String :=
  if exclude.contains k then acc
  else if acc.1.contains k then acc
  else (k :: acc.1, acc.2 ++ [k])

/-- `_collect_fieldnames(rows, exclude)`: field names in order of first
appearance across the rows, skipping excluded keys. -/
def _collect_fieldnames (rows : List Row) (exclude : List String) : List String :=
  (rows.foldl (fun acc row => row.foldl (fun a kv => collectStep exclude a kv.1) acc)
    ([], [])).2

/-- Python `str.lower()` (on the ASCII range the filenames use). -/
def lowerStr (s : String) : String :=
  String.mk (s.toList.map Char.toLower)

/-- Python `str.endswith(suffix)`. -/
def strEndsWith (s suffix : String) : Bool :=
  suffix.toList.isSuffixOf s.toList

/-- Split a character list on a separator character (`str.split(sep)`). -/
def splitOnChar (sep : Char) : List Char → List (List Char)
  | [] => [[]]
  | c :: cs =>
    let r := splitOnChar sep cs
    if c = sep then [] :: r
    else match r with
    | [] => [[c]]
    | h :: t => (c :: h) :: t

/-- A character allowed by `_slug`'s character class `[A-Za-z0-9._-]`. -/
def isSlugChar (c : Char) : Bool :=
  c.isAlphanum || c = '.' || c = '_' || c = '-'

/-- `_slug(s)`: replace every character outside `[A-Za-z0-9._-]` by `_`. -/
def _slug (s : String) : String :=
  String.mk (s.toList.map (fun c => if isSlugChar c then c else '_'))

/-- `pathlib.Path(s).name`: the final path component. -/
def pathName (s : String) : String :=
  String.mk ((splitOnChar '/' s.toList).getLastD s.toList)

/-- `pathlib.Path(s).stem`: the final component with its last suffix removed
(a leading dot does not start a suffix). -/
def pathStem (s : String) : String :=
  let name := pathName s
  match name.toList.reverse.dropWhile (fun c => c ≠ '.') with
  | [] => name
  | _ :: rest => if rest.isEmpty then name else String.mk rest.reverse

/-- `LabelPrintService.make_output_filename(template_name)`; the
`datetime.now().strftime(...)` timestamp is passed in as `ts`. -/
def make_output_filename (template_name : String) (ts : String) : String :=
  _slug (pathStem template_name) ++ "_" ++ ts ++ ".pdf"

/-! ## label_print.py : JSON → CSV -/

/-- `field_order or _collect_fieldnames(data)`: Python `or` falls through on
`None` **and** on an empty list. -/
def chooseFieldnames (field_order : Option (List String)) (data : List Row) :
    List String :=
  match field_order with
  | some fo => if fo.isEmpty then _collect_fieldnames data [] else fo
  | none => _collect_fieldnames data []

/-- The cells `csv.DictWriter.writerow({k: row.get(k, "") for k in fieldnames})`
emits for one record. -/
def csvRowCells (fieldnames : List String) (row : Row) : List String :=
  fieldnames.map (fun k => (row.lookup k).getD "")

/-- `LabelPrintService._json_to_csv(data, csv_path, field_order)`, with the file
contents returned instead of written: on success, the chosen field names
together with the written rows (header row followed by one row of cells per
record). Raises `ValueError("No label data to generate CSV")` on empty input,
before anything is written. -/
def _json_to_csv (data : List Row) (field_order : Option (List String)) :
    Except String (List String × List (List String)) :=
  if data.isEmpty then .error "No label data to generate CSV"
  else
    let fieldnames := chooseFieldnames field_order data
    .ok (fieldnames, fieldnames :: data.map (csvRowCells fieldnames))

/-- A filesystem of written tabular files: path ↦ written rows. -/
abbrev CsvFs := List (String × List (List String))

/-- `_json_to_csv` together with its side effect on the filesystem: on success
the file at `csv_path` is created or overwritten; on error no file is touched. -/
def _json_to_csv_fs (data : List Row) (field_order : Option (List String))
    (csv_path : String) (fs : CsvFs) :
    Except String (List String) × CsvFs :=
  match _json_to_csv data field_order with
  | .error e => (.error e, fs)
  | .ok (fieldnames, rows) =>
      (.ok fieldnames, (csv_path, rows) :: fs.filter (fun e => e.1 ≠ csv_path))

/-- Rendering of one CSV line with the default `csv` dialect on values that
need no quoting: cells joined by commas. -/
def csvLine (cells : List String) : String :=
  String.intercalate "," cells

/-! ## label_print.py : template resolution -/

inductive ResolveError where
  | invalidTemplate
  | templateNotFound
deriving DecidableEq, Repr

/-- `LabelPrintService._resolve_template(template_name)`, the template
directory's filenames passed in as `dirFiles` (in iteration order). Returns the
matching filename (standing for its path). -/
def _resolve_template (template_name : String) (dirFiles : List String) :
    Except ResolveError String :=
  if ¬ strEndsWith (lowerStr template_name) ".glabels" then .error .invalidTemplate
  else
    match dirFiles.find? (fun f => lowerStr f == lowerStr template_name) with
    | some f => .ok f
    | none => .error .templateNotFound

/-! ## label_print.py : the print pipeline `generate_pdf` -/

/-- `GlabelsRunError` carried by the engine on a non-zero exit. -/
structure GlabelsFailure where
  returncode : Int
  stderr : String
deriving DecidableEq, Repr

/-- The stderr truncation in `generate_pdf`'s failure branch:
`(e.stderr[:1024] + "...") if len(e.stderr) > 1024 else e.stderr`. -/
def truncStderr (s : String) : String :=
  if s.length > 1024 then String.mk (s.toList.take 1024) ++ "..." else s

/-- `LabelPrintService.generate_pdf`, with the external renderer's outcome
passed in as `engine` (the engine binary is outside the modelled core) and the
template directory listing as `dirFiles`. Exceptions are returned as their
`str(e)` text, as the worker stores them. On success, returns the realized
output path `output/<filename>` — note the caller in the worker loop discards
this value. -/
def generate_pdf (dirFiles : List String) (template_name : String)
    (data : List Row) (filename : String) (field_order : Option (List String))
    (engine : Except GlabelsFailure Unit) : Except String String :=
  match _resolve_template template_name dirFiles with
  | .error .invalidTemplate => .error "Only .glabels templates are allowed"
  | .error .templateNotFound => .error ("gLabels template not found: " ++ template_name)
  | .ok _ =>
    match _json_to_csv data field_order with
    | .error e => .error e
    | .ok _ =>
      match engine with
      | .error e =>
          .error ("Label PDF generation failed (rc=" ++ toString e.returncode ++ ")\n"
            ++ truncStderr e.stderr)
      | .ok () => .ok ("output/" ++ filename)

/-! ## job_manager.py : data model -/

inductive Status where
  | pending
  | running
  | done
  | failed
deriving DecidableEq, Repr

/-- `LabelRequest` (models/dto.py): the validated submission payload. -/
structure LabelRequest where
  template_name : String
  data : List Row
  copies : Nat
deriving DecidableEq, Repr

/-- One record of `JobManager.jobs`. The Python record is a dict; the
`output_file` key is modelled by an `Option`, `none` meaning the key is
absent (`"output_file" in job` is `Option.isSome`). -/
structure Job where
  status : Status
  filename : String
  template : String
  error : Option String
  created_at : Int
  updated_at : Int
  request : LabelRequest
  output_file : Option String
deriving DecidableEq, Repr

/-- The job table: a dict keyed by job id, in insertion order. -/
abbrev JobTable := List (String × Job)

/-- Dict lookup `self.jobs.get(job_id)`: the binding of the key, if any. -/
def lookupJob (job_id : String) : JobTable → Option Job
  | [] => none
  | (k, v) :: l => if job_id = k then some v else lookupJob job_id l

/-- Dict removal `self.jobs.pop(jid, None)`. -/
def eraseJob (job_id : String) (jobs : JobTable) : JobTable :=
  jobs.filter (fun e => ¬ e.1 = job_id)

/-- In-place mutation of the record bound to `job_id` (the worker mutates the
dict object it looked up, which is the one the table holds). -/
def updateJob (job_id : String) (j : Job) (jobs : JobTable) : JobTable :=
  jobs.map (fun e => if e.1 = job_id then (e.1, j) else e)

/-- The mutable state of a `JobManager`: the job table, the admission queue
(items `(job_id, request, filename)`), and the lifetime submission counter. -/
structure MState where
  jobs : JobTable
  queue : List (String × LabelRequest × String)
  jobs_total : Nat
deriving DecidableEq, Repr

/-- The state of a freshly constructed `JobManager`. -/
def initState : MState :=
  { jobs := [], queue := [], jobs_total := 0 }

/-! ## job_manager.py : operations -/

/-- `JobManager._make_job(req, job_id, filename)` (`job_id` is accepted but
unused by the source body); `datetime.now()` is passed in as `now`. -/
def _make_job (req : LabelRequest) (_job_id : String) (filename : String)
    (now : Int) : Job :=
  { status := .pending
    filename := filename
    template := req.template_name
    error := none
    created_at := now
    updated_at := now
    request := req
    output_file := none }

/-- `JobManager.submit_job(req)`: generate the output filename, insert the
fresh record (a fresh dict key is appended at the end), bump `jobs_total`,
enqueue `(job_id, req, filename)`, return the id. The generated uuid and
filename timestamp are passed in as `job_id` and `ts`. -/
def submit_job (st : MState) (req : LabelRequest) (job_id : String)
    (ts : String) (now : Int) : MState × String :=
  let filename := make_output_filename req.template_name ts
  ({ jobs := st.jobs ++ [(job_id, _make_job req job_id filename now)]
     queue := st.queue ++ [(job_id, req, filename)]
     jobs_total := st.jobs_total + 1 }, job_id)

/-- `JobManager.get_job(job_id)`. -/
def get_job (st : MState) (job_id : String) : Option Job :=
  lookupJob job_id st.jobs

/-! ## job_manager.py : retention sweep -/

/-- The body of `_cleanup_jobs`'s loop for one expired job id: optionally
delete the recorded output file (`AUTO_CLEANUP_PDF` and the `output_file` key
present and the path existing on disk; an `OSError` — a path in `failSet` — is
logged and swallowed), then pop the record. `files` is the set of paths
existing on disk. -/
def cleanupFiles (auto_cleanup : Bool) (failSet : List String) (job : Job)
    (files : List String) : List String :=
  if auto_cleanup then
    match job.output_file with
    | some p =>
      if files.contains p then
        if failSet.contains p then files else files.filter (fun q => ¬ q = p)
      else files
    | none => files
  else files

def cleanupStep (auto_cleanup : Bool) (failSet : List String)
    (st : JobTable × List String) (jid : String) : JobTable × List String :=
  match lookupJob jid st.1 with
  | none => st
  | some job => (eraseJob jid st.1, cleanupFiles auto_cleanup failSet job st.2)

/-- `JobManager._cleanup_jobs()`: collect the ids of every job strictly older
than `now - retention`, then delete (file, record) for each. Returns the new
job table and the new set of on-disk paths. -/
def _cleanup_jobs (auto_cleanup : Bool) (failSet : List String)
    (retention now : Int) (jobs : JobTable) (files : List String) :
    JobTable × List String :=
  let cutoff := now - retention
  let old_jobs := (jobs.filter (fun e => e.2.created_at < cutoff)).map (fun e => e.1)
  old_jobs.foldl (cleanupStep auto_cleanup failSet) (jobs, files)

/-! ## job_manager.py : worker loop -/

/-- The record after `job["status"] = "running"; job["updated_at"] = t₁`. -/
def runningRec (j : Job) (t1 : Int) : Job :=
  { j with status := .running, updated_at := t1 }

/-- The record after the `try/except/finally` around `generate_pdf`: `done` on
success (the returned output path is discarded — no field of the record
receives it), `failed` with `error = str(e)` on an exception, and in both
cases `updated_at` is set in the `finally` block. -/
def finishedRec (j : Job) (pipeline : Except String String) (t1 t2 : Int) : Job :=
  let r := runningRec j t1
  let r' :=
    match pipeline with
    | .ok _ => { r with status := .done }
    | .error e => { r with status := .failed, error := some e }
  { r' with updated_at := t2 }

/-- One iteration of `JobManager._worker`'s `while True` body for a dequeued
item, with the awaited `generate_pdf` outcome passed in as `pipeline`.
`self.jobs[job_id]` on an id no longer in the table raises `KeyError`; the
loop catches only `asyncio.CancelledError`, so any other exception escapes and
kills the worker task — modelled as `none`. Otherwise the record is mutated
through `running` to its terminal state and `_cleanup_jobs` runs. -/
def workerIteration (auto_cleanup : Bool) (failSet : List String)
    (retention : Int) (st : MState) (files : List String) (job_id : String)
    (pipeline : Except String String) (t1 t2 now : Int) :
    Option (MState × List String) :=
  match lookupJob job_id st.jobs with
  | none => none
  | some job =>
    let jobs1 := updateJob job_id (finishedRec job pipeline t1 t2) st.jobs
    let (jobs2, files2) := _cleanup_jobs auto_cleanup failSet retention now jobs1 files
    some ({ st with jobs := jobs2 }, files2)

/-! ## Spec-side characterizations

The spec describes the default field order as "the sequence of distinct keys
in order of first appearance across all records". `flatKeys` and `dedupFirst`
below are written from those words, to be compared with the source-side
`_collect_fieldnames`. -/

/-- The keys of all records, concatenated in record order. -/
def flatKeys (rows : List Row) : List String :=
  rows.flatMap (fun r => r.map Prod.fst)

/-- Keep the first occurrence of each element, skipping anything in `seen`. -/
def dedupFrom (seen : List String) : List String → List String
  | [] => []
  | k :: ks =>
    if seen.contains k then dedupFrom seen ks
    else k :: dedupFrom (k :: seen) ks

/-- "The sequence of distinct keys in order of first appearance". -/
def dedupFirst (ks : List String) : List String :=
  dedupFrom [] ks

/-! ## Lemmas about the exporter -/

theorem contains_iff_mem (l : List String) (a : String) :
    l.contains a = true ↔ a ∈ l :=
  List.elem_iff

theorem mem_dedupFrom (a : String) :
    ∀ (ks seen : List String),
      a ∈ dedupFrom seen ks ↔ a ∈ ks ∧ a ∉ seen
  | [], seen => by simp [dedupFrom]
  | k :: ks, seen => by
    rw [dedupFrom]
    by_cases h : k ∈ seen
    · rw [if_pos ((contains_iff_mem seen k).mpr h), mem_dedupFrom a ks seen,
        List.mem_cons]
      constructor
      · exact fun ⟨h1, h2⟩ => ⟨Or.inr h1, h2⟩
      · rintro ⟨rfl | h1, h2⟩
        · exact absurd h h2
        · exact ⟨h1, h2⟩
    · rw [if_neg (fun hc => h ((contains_iff_mem seen k).mp hc))]
      rw [List.mem_cons, List.mem_cons, mem_dedupFrom a ks (k :: seen)]
      constructor
      · rintro (rfl | ⟨h1, h2⟩)
        · exact ⟨Or.inl rfl, h⟩
        · exact ⟨Or.inr h1, fun hs => h2 (List.mem_cons_of_mem _ hs)⟩
      · rintro ⟨rfl | h1, h2⟩
        · exact Or.inl rfl
        · by_cases hak : a = k
          · exact Or.inl hak
          · exact Or.inr ⟨h1, fun hc => (List.mem_cons.mp hc).elim hak h2⟩

theorem nodup_dedupFrom : ∀ (ks seen : List String), (dedupFrom seen ks).Nodup
  | [], _ => by simp [dedupFrom]
  | k :: ks, seen => by
    rw [dedupFrom]
    by_cases h : k ∈ seen
    · rw [if_pos ((contains_iff_mem seen k).mpr h)]
      exact nodup_dedupFrom ks seen
    · rw [if_neg (fun hc => h ((contains_iff_mem seen k).mp hc))]
      refine List.nodup_cons.mpr ⟨fun hc => ?_, nodup_dedupFrom ks (k :: seen)⟩
      have := (mem_dedupFrom k ks (k :: seen)).mp hc
      exact this.2 (List.mem_cons_self _ _)

/-- Nothing in `_collect_fieldnames`'s inner loop depends on the pairs' values:
folding over the rows is folding `collectStep` over the flattened key list. -/
theorem collect_foldl_flatKeys (exclude : List String) :
    ∀ (rows : List Row) (acc : List String × List String),
      rows.foldl (fun a row => row.foldl (fun a' kv => collectStep exclude a' kv.1) a) acc
        = (flatKeys rows).foldl (collectStep exclude) acc
  | [], _ => by simp [flatKeys]
  | row :: rows, acc => by
    simp only [List.foldl_cons, flatKeys, List.flatMap_cons, List.foldl_append]
    rw [collect_foldl_flatKeys exclude rows]
    simp [flatKeys, List.foldl_map]

/-- `_collect_fieldnames`'s fold and `dedupFrom` branch on the same `seen`
set, so the accumulated order extends by exactly the first-appearance
deduplication of the remaining keys. -/
theorem collect_fold_eq_dedup :
    ∀ (ks seen order : List String),
      (ks.foldl (collectStep []) (seen, order)).2 = order ++ dedupFrom seen ks
  | [], seen, order => by simp [dedupFrom]
  | k :: ks, seen, order => by
    have hstep : collectStep [] (seen, order) k =
        if seen.contains k then (seen, order) else (k :: seen, order ++ [k]) := by
      simp [collectStep]
    rw [List.foldl_cons, hstep, dedupFrom]
    by_cases h : seen.contains k
    · rw [if_pos h, if_pos h]
      exact collect_fold_eq_dedup ks seen order
    · rw [if_neg h, if_neg h, collect_fold_eq_dedup ks (k :: seen) (order ++ [k])]
      simp

/-- `_collect_fieldnames` with no excluded keys is exactly the spec's
"distinct keys in order of first appearance across all records". -/
theorem collect_fieldnames_eq_dedupFirst (rows : List Row) :
    _collect_fieldnames rows [] = dedupFirst (flatKeys rows) := by
  unfold _collect_fieldnames dedupFirst
  rw [collect_foldl_flatKeys, collect_fold_eq_dedup (flatKeys rows) [] []]
  simp

/-! ## Claim C7 -/

/-- C7: for every non-empty record list with no explicit field order, the
exporter writes a header row whose fields are the distinct record keys in
order of first appearance across all records, followed by one row per record,
a record missing a chosen field contributing an empty value; in particular
records `[{"X":1},{"Y":2}]` produce header `[X, Y]`, row 1 = `1,` and
row 2 = `,2`. -/
theorem C7_exporter_first_appearance (data : List Row) (h : data ≠ []) :
    _json_to_csv data none =
      .ok (dedupFirst (flatKeys data),
        dedupFirst (flatKeys data) :: data.map (csvRowCells (dedupFirst (flatKeys data))))
    ∧ (dedupFirst (flatKeys data)).Nodup
    ∧ (∀ k, k ∈ dedupFirst (flatKeys data) ↔ k ∈ flatKeys data)
    ∧ (data.map (csvRowCells (dedupFirst (flatKeys data)))).length = data.length
    ∧ (∀ row ∈ data, ∀ i : Nat, ∀ k, (dedupFirst (flatKeys data))[i]? = some k →
        row.lookup k = none →
        (csvRowCells (dedupFirst (flatKeys data)) row)[i]? = some "")
    ∧ (_json_to_csv [[("X", "1")], [("Y", "2")]] none).map (fun p => p.2.map csvLine)
        = .ok ["X,Y", "1,", ",2"] := by
  refine ⟨?_, nodup_dedupFrom _ _, ?_, by simp, ?_, rfl⟩
  · rw [_json_to_csv, if_neg (by simpa using h)]
    simp [chooseFieldnames, collect_fieldnames_eq_dedupFirst]
  · intro k
    rw [dedupFirst, mem_dedupFrom]
    simp
  · intro row _ i k hk hnone
    simp [csvRowCells, List.getElem?_map, hk, hnone]

/-- Witness for C7 at the spec's concrete scenario. -/
theorem C7_exporter_first_appearance_witness :
    _json_to_csv [[("X", "1")], [("Y", "2")]] none =
      .ok (dedupFirst (flatKeys [[("X", "1")], [("Y", "2")]]),
        dedupFirst (flatKeys [[("X", "1")], [("Y", "2")]]) ::
          [[("X", "1")], [("Y", "2")]].map
            (csvRowCells (dedupFirst (flatKeys [[("X", "1")], [("Y", "2")]])))) :=
  (C7_exporter_first_appearance [[("X", "1")], [("Y", "2")]] (by decide)).1

/-! ## Claim C8 -/

/-- C8: a call to the exporter with an empty record list fails with the
`EmptyInput` error (`ValueError("No label data to generate CSV")`) and writes
no file at the target path; with a non-empty record list that error is never
raised. -/
theorem C8_empty_input (data : List Row) (fo : Option (List String))
    (path : String) (fs : CsvFs) :
    (data = [] →
      _json_to_csv_fs data fo path fs = (.error "No label data to generate CSV", fs))
    ∧ (data ≠ [] →
      (_json_to_csv_fs data fo path fs).1 = .ok (chooseFieldnames fo data)) := by
  constructor
  · rintro rfl
    rfl
  · intro h
    rw [_json_to_csv_fs, _json_to_csv, if_neg (by simpa using h)]

/-- Witness for C8: the empty call errors and leaves the filesystem alone; a
one-record call succeeds. -/
theorem C8_empty_input_witness :
    _json_to_csv_fs ([] : List Row) none "temp/j.csv" []
        = (.error "No label data to generate CSV", [])
    ∧ (_json_to_csv_fs [[("A", "1")]] none "temp/j.csv" []).1 = .ok ["A"] :=
  ⟨(C8_empty_input [] none "temp/j.csv" []).1 rfl,
   ((C8_empty_input [[("A", "1")]] none "temp/j.csv" []).2 (by decide)).trans rfl⟩

/-! ## Claim C9 -/

/-- C9: template resolution fails with `InvalidTemplate` for every identifier
lacking the `.glabels` extension (case-insensitively, for every directory
listing); otherwise it returns a file of the directory whose name matches the
identifier case-insensitively, and fails with `TemplateNotFound` exactly when
no filename matches. -/
theorem C9_resolve_template (name : String) (files : List String) :
    (strEndsWith (lowerStr name) ".glabels" = false →
        _resolve_template name files = .error .invalidTemplate)
    ∧ (strEndsWith (lowerStr name) ".glabels" = true →
        ((∀ f ∈ files, lowerStr f ≠ lowerStr name) →
            _resolve_template name files = .error .templateNotFound)
        ∧ (∀ f, _resolve_template name files = .ok f →
            f ∈ files ∧ lowerStr f = lowerStr name)
        ∧ (∀ f ∈ files, lowerStr f = lowerStr name →
            ∃ g, _resolve_template name files = .ok g ∧ g ∈ files
              ∧ lowerStr g = lowerStr name)) := by
  constructor
  · intro hbad
    rw [_resolve_template, if_pos (by simp [hbad])]
  · intro hgood
    refine ⟨?_, ?_, ?_⟩
    · intro hnomatch
      rw [_resolve_template, if_neg (by simp [hgood])]
      rw [List.find?_eq_none.mpr (fun f hf hbeq =>
        hnomatch f hf (by simpa using hbeq))]
    · intro f hok
      rw [_resolve_template, if_neg (by simp [hgood])] at hok
      rcases hfind : files.find? (fun g => lowerStr g == lowerStr name) with _ | g
      · rw [hfind] at hok
        exact absurd hok (by simp)
      · rw [hfind] at hok
        cases hok
        exact ⟨List.mem_of_find?_eq_some hfind,
          by simpa using List.find?_some hfind⟩
    · intro f hf hmatch
      have hsome : (files.find? (fun g => lowerStr g == lowerStr name)).isSome := by
        rw [List.find?_isSome]
        exact ⟨f, hf, by simpa using hmatch⟩
      rcases hfind : files.find? (fun g => lowerStr g == lowerStr name) with _ | g
      · rw [hfind] at hsome
        simp at hsome
      · refine ⟨g, ?_, List.mem_of_find?_eq_some hfind,
          by simpa using List.find?_some hfind⟩
        rw [_resolve_template, if_neg (by simp [hgood]), hfind]

/-- Witness for C9: a wrong-extension identifier is rejected for an arbitrary
listing; `Demo.GLABELS` matches `demo.Glabels` case-insensitively; a
`.glabels` identifier with no match is not found. -/
theorem C9_resolve_template_witness :
    _resolve_template "demo.txt" ["demo.txt"] = .error .invalidTemplate
    ∧ _resolve_template "Demo.GLABELS" ["other.glabels", "demo.Glabels"]
        = .ok "demo.Glabels"
    ∧ _resolve_template "missing.glabels" ["other.glabels"]
        = .error .templateNotFound := by
  refine ⟨(C9_resolve_template "demo.txt" ["demo.txt"]).1 (by decide), ?_, ?_⟩
  · have h := ((C9_resolve_template "Demo.GLABELS"
      ["other.glabels", "demo.Glabels"]).2 (by decide)).2.2
        "demo.Glabels" (by simp) (by decide)
    rcases h with ⟨g, hg, hmem, hlow⟩
    rcases List.mem_cons.mp hmem with rfl | hmem2
    · exact absurd hlow (by decide)
    · rcases List.mem_singleton.mp hmem2 with rfl
      exact hg
  · exact ((C9_resolve_template "missing.glabels" ["other.glabels"]).2
      (by decide)).1 (by decide)

/-! ## Claim C10 -/

/-- C10: with a non-empty record list, an explicit but empty field-order list
behaves exactly as an omitted one — the empty list is not honored; the field
order falls back to the distinct keys in first-appearance order. -/
theorem C10_empty_field_order_falls_back (data : List Row) (_h : data ≠ []) :
    _json_to_csv data (some []) = _json_to_csv data none
    ∧ chooseFieldnames (some []) data = _collect_fieldnames data [] := by
  constructor
  · rw [_json_to_csv, _json_to_csv]
    simp [chooseFieldnames]
  · simp [chooseFieldnames]

/-- Witness for C10 on a one-record list. -/
theorem C10_empty_field_order_falls_back_witness :
    _json_to_csv [[("A", "1")]] (some []) = _json_to_csv [[("A", "1")]] none :=
  (C10_empty_field_order_falls_back [[("A", "1")]] (by decide)).1

/-! ## Lemmas about the job table and the retention sweep -/

theorem lookup_some_mem :
    ∀ (l : JobTable) (a : String) (b : Job),
      lookupJob a l = some b → (a, b) ∈ l
  | [], _, _, h => by simp [lookupJob] at h
  | (k, v) :: l, a, b, h => by
    rw [lookupJob] at h
    by_cases hak : a = k
    · rw [if_pos hak] at h
      cases h
      rw [hak]
      exact List.mem_cons_self _ _
    · rw [if_neg hak] at h
      exact List.mem_cons_of_mem _ (lookup_some_mem l a b h)

theorem lookup_filter_none (q : String × Job → Bool) :
    ∀ (l : JobTable) (a : String),
      lookupJob a l = none → lookupJob a (l.filter q) = none
  | [], _, _ => rfl
  | (k, v) :: l, a, h => by
    rw [lookupJob] at h
    by_cases hak : a = k
    · rw [if_pos hak] at h
      cases h
    · rw [if_neg hak] at h
      rw [List.filter_cons]
      by_cases hq : q (k, v)
      · rw [if_pos hq, lookupJob, if_neg hak]
        exact lookup_filter_none q l a h
      · rw [if_neg hq]
        exact lookup_filter_none q l a h

theorem lookup_eraseJob_self (a : String) (l : JobTable) :
    lookupJob a (eraseJob a l) = none := by
  induction l with
  | nil => rfl
  | cons e l ih =>
    rw [eraseJob, List.filter_cons]
    by_cases he : e.1 = a
    · rw [if_neg (by simpa using he)]
      exact ih
    · rw [if_pos (by simpa using he), lookupJob, if_neg (fun h => he h.symm)]
      exact ih

theorem lookup_eraseJob_other (a b : String) (l : JobTable) (hab : a ≠ b) :
    lookupJob a (eraseJob b l) = lookupJob a l := by
  induction l with
  | nil => rfl
  | cons e l ih =>
    rw [eraseJob, List.filter_cons]
    by_cases he : e.1 = b
    · rw [if_neg (by simpa using he), lookupJob,
        if_neg (fun h : a = e.1 => hab (h.trans he)), ← ih, eraseJob]
    · rw [if_pos (by simpa using he), lookupJob, lookupJob]
      by_cases hae : a = e.1
      · rw [if_pos hae, if_pos hae]
      · rw [if_neg hae, if_neg hae, ← ih, eraseJob]

theorem cleanupFiles_mono (auto : Bool) (failSet : List String) (job : Job)
    (files : List String) (p : String) (h : p ∉ files) :
    p ∉ cleanupFiles auto failSet job files := by
  rw [cleanupFiles]
  rcases auto with _ | _
  · exact h
  · rw [if_pos rfl]
    rcases job.output_file with _ | q
    · exact h
    · dsimp only
      by_cases h1 : files.contains q
      · rw [if_pos h1]
        by_cases h2 : failSet.contains q
        · rw [if_pos h2]; exact h
        · rw [if_neg h2]
          exact fun hc => h (List.mem_of_mem_filter hc)
      · rw [if_neg h1]; exact h

/-- When auto-cleanup is on, the recorded path is deleted (unless the OS
refuses): it is not among the resulting files. -/
theorem cleanupFiles_deletes (failSet : List String) (job : Job)
    (files : List String) (p : String) (hout : job.output_file = some p)
    (hfail : ¬ failSet.contains p) :
    p ∉ cleanupFiles true failSet job files := by
  rw [cleanupFiles, if_pos rfl, hout]
  dsimp only
  by_cases h1 : files.contains p
  · rw [if_pos h1, if_neg hfail]
    intro hc
    exact (by simpa using List.of_mem_filter hc : ¬ p = p) rfl
  · rw [if_neg h1]
    exact fun hc => h1 ((contains_iff_mem files p).mpr hc)

/-- One sweep step only removes table entries. -/
theorem cleanupStep_preserves_absent (auto : Bool) (failSet : List String)
    (st : JobTable × List String) (jid a : String)
    (h : lookupJob a st.1 = none) :
    lookupJob a ((cleanupStep auto failSet st jid).1) = none := by
  rw [cleanupStep]
  cases lookupJob jid st.1
  · exact h
  · exact lookup_filter_none _ st.1 a h

theorem cleanupStep_files_mono (auto : Bool) (failSet : List String)
    (st : JobTable × List String) (jid : String) (p : String)
    (h : p ∉ st.2) :
    p ∉ (cleanupStep auto failSet st jid).2 := by
  rw [cleanupStep]
  rcases lookupJob jid st.1 with _ | job
  · exact h
  · exact cleanupFiles_mono auto failSet job st.2 p h

theorem cleanup_fold_preserves_absent (auto : Bool) (failSet : List String) :
    ∀ (old : List String) (st : JobTable × List String) (a : String),
      lookupJob a st.1 = none →
      lookupJob a ((old.foldl (cleanupStep auto failSet) st).1) = none
  | [], _, _, h => h
  | jid :: old, st, a, h =>
    cleanup_fold_preserves_absent auto failSet old _ a
      (cleanupStep_preserves_absent auto failSet st jid a h)

theorem cleanup_fold_files_mono (auto : Bool) (failSet : List String) :
    ∀ (old : List String) (st : JobTable × List String) (p : String),
      p ∉ st.2 → p ∉ ((old.foldl (cleanupStep auto failSet) st).2)
  | [], _, _, h => h
  | jid :: old, st, p, h =>
    cleanup_fold_files_mono auto failSet old _ p
      (cleanupStep_files_mono auto failSet st jid p h)

/-- Any id in the processed list is absent from the table after the fold. -/
theorem cleanup_fold_removes (auto : Bool) (failSet : List String) :
    ∀ (old : List String) (st : JobTable × List String) (jid : String),
      jid ∈ old →
      lookupJob jid ((old.foldl (cleanupStep auto failSet) st).1) = none
  | [], _, _, h => absurd h (List.not_mem_nil _)
  | j :: old, st, jid, h => by
    rcases List.mem_cons.mp h with rfl | hmem
    · refine cleanup_fold_preserves_absent auto failSet old _ jid ?_
      rw [cleanupStep]
      rcases hl : lookupJob jid st.1 with _ | job
      · exact hl
      · exact lookup_eraseJob_self jid st.1
    · exact cleanup_fold_removes auto failSet old _ jid hmem

/-- If a job in the processed list records output path `p` and the OS does not
refuse the deletion, `p` is not on disk after the fold (with auto-cleanup on). -/
theorem cleanup_fold_deletes_file (failSet : List String) :
    ∀ (old : List String) (jobs : JobTable) (files : List String)
      (jid : String) (job : Job) (p : String),
      jid ∈ old → lookupJob jid jobs = some job → job.output_file = some p →
      ¬ failSet.contains p →
      p ∉ ((old.foldl (cleanupStep true failSet) (jobs, files)).2)
  | [], _, _, _, _, _, h, _, _, _ => absurd h (List.not_mem_nil _)
  | j :: old, jobs, files, jid, job, p, h, hlook, hout, hfail => by
    rcases List.mem_cons.mp h with rfl | hmem
    · rw [List.foldl_cons, cleanupStep]
      have hl : lookupJob jid (jobs, files).1 = some job := hlook
      rw [hl]
      exact cleanup_fold_files_mono true failSet old _ p
        (cleanupFiles_deletes failSet job files p hout hfail)
    · rw [List.foldl_cons, cleanupStep]
      rcases hl : lookupJob j (jobs, files).1 with _ | jobj
      · exact cleanup_fold_deletes_file failSet old jobs files jid job p
          hmem hlook hout hfail
      · by_cases hjj : jid = j
        · subst hjj
          rw [hlook] at hl
          cases hl
          exact cleanup_fold_files_mono true failSet old _ p
            (cleanupFiles_deletes failSet job files p hout hfail)
        · exact cleanup_fold_deletes_file failSet old _ _ jid job p hmem
            ((lookup_eraseJob_other jid j jobs hjj).trans hlook) hout hfail

/-- An expired id is in the sweep's `old_jobs` list. -/
theorem mem_old_jobs (jobs : JobTable) (cutoff : Int) (jid : String) (job : Job)
    (hlook : lookupJob jid jobs = some job) (hold : job.created_at < cutoff) :
    jid ∈ (jobs.filter (fun e => e.2.created_at < cutoff)).map (fun e => e.1) :=
  List.mem_map.mpr ⟨(jid, job),
    List.mem_filter.mpr ⟨lookup_some_mem jobs jid job hlook, by simpa using hold⟩, rfl⟩

/-! ## Claim C2 -/

/-- C2: after a retention sweep, every job whose creation time is older than
the retention window is absent from the job table; and if auto-cleanup of
output files is enabled, the job recorded an output path, and the OS does not
refuse the deletion, that file no longer exists after the sweep. The sweep is
a total function — a refused deletion (a path in `failSet`) never prevents the
job removals. -/
theorem C2_retention_sweep (auto_cleanup : Bool) (failSet : List String)
    (retention now : Int) (jobs : JobTable) (files : List String)
    (jid : String) (job : Job)
    (hlook : lookupJob jid jobs = some job)
    (hold : job.created_at < now - retention) :
    lookupJob jid (_cleanup_jobs auto_cleanup failSet retention now jobs files).1 = none
    ∧ (∀ p, auto_cleanup = true → job.output_file = some p →
        ¬ failSet.contains p →
        p ∉ (_cleanup_jobs auto_cleanup failSet retention now jobs files).2) := by
  constructor
  · exact cleanup_fold_removes auto_cleanup failSet _ (jobs, files) jid
      (mem_old_jobs jobs (now - retention) jid job hlook hold)
  · rintro p rfl hout hfail
    exact cleanup_fold_deletes_file failSet _ jobs files jid job p
      (mem_old_jobs jobs (now - retention) jid job hlook hold) hlook hout hfail

/-- Witness for C2: a terminal job created at time 0 with window 24 is removed
by a sweep at time 100 and its recorded output file is deleted. -/
theorem C2_retention_sweep_witness :
    lookupJob "j1" (_cleanup_jobs true [] 24 100
      [("j1", { status := .done, filename := "a.pdf", template := "t.glabels",
                error := none, created_at := 0, updated_at := 1,
                request := { template_name := "t.glabels", data := [], copies := 1 },
                output_file := some "output/a.pdf" })]
      ["output/a.pdf"]).1 = none
    ∧ "output/a.pdf" ∉ (_cleanup_jobs true [] 24 100
      [("j1", { status := .done, filename := "a.pdf", template := "t.glabels",
                error := none, created_at := 0, updated_at := 1,
                request := { template_name := "t.glabels", data := [], copies := 1 },
                output_file := some "output/a.pdf" })]
      ["output/a.pdf"]).2 := by
  have h := C2_retention_sweep true [] 24 100
    [("j1", { status := .done, filename := "a.pdf", template := "t.glabels",
              error := none, created_at := 0, updated_at := 1,
              request := { template_name := "t.glabels", data := [], copies := 1 },
              output_file := some "output/a.pdf" })]
    ["output/a.pdf"] "j1"
    { status := .done, filename := "a.pdf", template := "t.glabels",
      error := none, created_at := 0, updated_at := 1,
      request := { template_name := "t.glabels", data := [], copies := 1 },
      output_file := some "output/a.pdf" }
    rfl (by decide)
  exact ⟨h.1, h.2 "output/a.pdf" rfl rfl (by decide)⟩

/-! ## Claim C4 -/

/-- C4 as stated is false: `_cleanup_jobs` selects `old_jobs` by
`created_at < cutoff` alone and never reads `status`. A `running` job created
at time 0 is removed by a sweep at time 100 with window 24, although `running`
is not a terminal state. -/
theorem C4_counterexample_sweep_removes_running :
    lookupJob "j1" (_cleanup_jobs true [] 24 100
      [("j1", { status := .running, filename := "a.pdf", template := "t.glabels",
                error := none, created_at := 0, updated_at := 0,
                request := { template_name := "t.glabels", data := [], copies := 1 },
                output_file := none })] []).1 = none
    ∧ ({ status := .running, filename := "a.pdf", template := "t.glabels",
         error := none, created_at := 0, updated_at := 0,
         request := { template_name := "t.glabels", data := [], copies := 1 },
         output_file := none } : Job).status ≠ .done
    ∧ ({ status := .running, filename := "a.pdf", template := "t.glabels",
         error := none, created_at := 0, updated_at := 0,
         request := { template_name := "t.glabels", data := [], copies := 1 },
         output_file := none } : Job).status ≠ .failed := by
  refine ⟨?_, by decide, by decide⟩
  decide

/-- C4 amended: the retention sweep removes every job older than the retention
window regardless of its status — `pending` and `running` jobs included, not
only terminal ones. -/
theorem C4_amended_sweep_ignores_status (s : Status) (auto_cleanup : Bool)
    (failSet : List String) (retention now : Int) (jobs : JobTable)
    (files : List String) (jid : String) (job : Job)
    (_hstatus : job.status = s)
    (hlook : lookupJob jid jobs = some job)
    (hold : job.created_at < now - retention) :
    lookupJob jid (_cleanup_jobs auto_cleanup failSet retention now jobs files).1
      = none :=
  cleanup_fold_removes auto_cleanup failSet _ (jobs, files) jid
    (mem_old_jobs jobs (now - retention) jid job hlook hold)

/-- Witness for the amended C4 at a `pending` job. -/
theorem C4_amended_sweep_ignores_status_witness :
    lookupJob "j2" (_cleanup_jobs false [] 24 100
      [("j2", { status := .pending, filename := "b.pdf", template := "t.glabels",
                error := none, created_at := 0, updated_at := 0,
                request := { template_name := "t.glabels", data := [], copies := 1 },
                output_file := none })] []).1 = none :=
  C4_amended_sweep_ignores_status .pending false [] 24 100
    [("j2", { status := .pending, filename := "b.pdf", template := "t.glabels",
              error := none, created_at := 0, updated_at := 0,
              request := { template_name := "t.glabels", data := [], copies := 1 },
              output_file := none })] [] "j2"
    { status := .pending, filename := "b.pdf", template := "t.glabels",
      error := none, created_at := 0, updated_at := 0,
      request := { template_name := "t.glabels", data := [], copies := 1 },
      output_file := none }
    rfl rfl (by decide)

/-! ## Claim C6 -/

theorem lookup_append_fresh (a : String) (b : Job) :
    ∀ (l : JobTable), lookupJob a l = none → lookupJob a (l ++ [(a, b)]) = some b
  | [], _ => by rw [List.nil_append, lookupJob, if_pos rfl]
  | (k, v) :: l, h => by
    rw [lookupJob] at h
    by_cases hak : a = k
    · rw [if_pos hak] at h
      cases h
    · rw [if_neg hak] at h
      rw [List.cons_append, lookupJob, if_neg hak]
      exact lookup_append_fresh a b l h

/-- `make_output_filename` always ends in `.pdf`, so it is never empty. -/
theorem make_output_filename_ne_empty (t ts : String) :
    make_output_filename t ts ≠ "" := by
  rw [make_output_filename]
  intro h
  have h4 : (".pdf").length = 0 := by
    have := congrArg String.length h
    simp [String.length_append] at this
    exact this.2
  exact absurd h4 (by decide)

/-- C6: for every valid submission, `get(jobId)` immediately after `submit`
(before any worker acts) returns a record in `pending` with a non-empty
`filename` and with `template` equal to the request's template identifier, and
`submit` increments the lifetime submission counter by exactly one. The
freshness of the generated uuid is the hypothesis `hfresh`. -/
theorem C6_submit_then_get (st : MState) (req : LabelRequest)
    (job_id ts : String) (now : Int)
    (hfresh : lookupJob job_id st.jobs = none) :
    (∃ j, get_job (submit_job st req job_id ts now).1 job_id = some j
      ∧ j.status = .pending
      ∧ j.filename ≠ ""
      ∧ j.template = req.template_name)
    ∧ (submit_job st req job_id ts now).1.jobs_total = st.jobs_total + 1 := by
  refine ⟨⟨_make_job req job_id (make_output_filename req.template_name ts) now,
    ?_, rfl, make_output_filename_ne_empty req.template_name ts, rfl⟩, rfl⟩
  exact lookup_append_fresh job_id _ st.jobs hfresh

/-- Witness for C6: a submission into a fresh manager. -/
theorem C6_submit_then_get_witness :
    (∃ j, get_job (submit_job initState
        { template_name := "demo.glabels", data := [[("A", "1")]], copies := 1 }
        "j1" "20250919_123456" 0).1 "j1" = some j
      ∧ j.status = .pending
      ∧ j.filename ≠ ""
      ∧ j.template = "demo.glabels")
    ∧ (submit_job initState
        { template_name := "demo.glabels", data := [[("A", "1")]], copies := 1 }
        "j1" "20250919_123456" 0).1.jobs_total = initState.jobs_total + 1 :=
  C6_submit_then_get initState
    { template_name := "demo.glabels", data := [[("A", "1")]], copies := 1 }
    "j1" "20250919_123456" 0 rfl

/-! ## Claim C5 -/

/-- The spec's Job invariant: `error` is set if and only if `status == failed`. -/
def errOk (j : Job) : Prop := j.error ≠ none ↔ j.status = .failed

/-- Sweep steps only drop entries; surviving bindings are unchanged. -/
theorem cleanup_fold_mem_subset (auto_cleanup : Bool) (failSet : List String) :
    ∀ (old : List String) (st : JobTable × List String) (e : String × Job),
      e ∈ (old.foldl (cleanupStep auto_cleanup failSet) st).1 → e ∈ st.1
  | [], _, _, h => h
  | jid :: old, st, e, h => by
    have h1 := cleanup_fold_mem_subset auto_cleanup failSet old _ e h
    rw [cleanupStep] at h1
    rcases hl : lookupJob jid st.1 with _ | job
    · rw [hl] at h1
      exact h1
    · rw [hl] at h1
      exact List.mem_of_mem_filter h1

/-- An entry of the table after `updateJob` is the new binding's value or an
untouched old entry. -/
theorem updateJob_mem (id : String) (j : Job) (l : JobTable) (e : String × Job)
    (h : e ∈ updateJob id j l) : e.2 = j ∨ e ∈ l := by
  rw [updateJob] at h
  rcases List.mem_map.mp h with ⟨orig, horig, heq⟩
  by_cases hc : orig.1 = id
  · rw [if_pos hc] at heq
    left
    rw [← heq]
  · rw [if_neg hc] at heq
    right
    rw [← heq]
    exact horig

/-- C5: `error` is non-null iff the status is `failed`, at every point of a
job's lifecycle: it is null at creation (`pending`), stays null through
`running` and `done`, and is set to the failure text exactly when the worker
marks the job `failed`; and one full worker iteration preserves the invariant
for every record in the table (the dequeued job's `error` being null, as it is
for every enqueued — hence pending — job). -/
theorem C5_error_iff_failed :
    (∀ (req : LabelRequest) (job_id filename : String) (now : Int),
      (_make_job req job_id filename now).error = none
      ∧ (_make_job req job_id filename now).status = .pending
      ∧ errOk (_make_job req job_id filename now))
    ∧ (∀ (j : Job) (t1 : Int), j.error = none → errOk (runningRec j t1))
    ∧ (∀ (j : Job) (pipeline : Except String String) (t1 t2 : Int),
        j.error = none →
        errOk (finishedRec j pipeline t1 t2)
        ∧ (∀ e, pipeline = .error e →
            (finishedRec j pipeline t1 t2).status = .failed
            ∧ (finishedRec j pipeline t1 t2).error = some e)
        ∧ (∀ p, pipeline = .ok p →
            (finishedRec j pipeline t1 t2).status = .done
            ∧ (finishedRec j pipeline t1 t2).error = none))
    ∧ (∀ (auto_cleanup : Bool) (failSet : List String) (retention : Int)
        (st : MState) (files : List String) (job_id : String)
        (pipeline : Except String String) (t1 t2 now : Int)
        (st' : MState) (files' : List String),
        (∀ e ∈ st.jobs, errOk e.2) →
        (∀ j, lookupJob job_id st.jobs = some j → j.error = none) →
        workerIteration auto_cleanup failSet retention st files job_id pipeline
          t1 t2 now = some (st', files') →
        ∀ e ∈ st'.jobs, errOk e.2) := by
  refine ⟨?_, ?_, ?_, ?_⟩
  · intro req job_id filename now
    refine ⟨rfl, rfl, ?_⟩
    rw [errOk]
    simp [_make_job]
  · intro j t1 herr
    rw [errOk, runningRec]
    simp [herr]
  · intro j pipeline t1 t2 herr
    rcases pipeline with e | p
    · refine ⟨?_, ?_, ?_⟩
      · rw [errOk]
        simp [finishedRec, runningRec]
      · intro e' he'
        cases he'
        exact ⟨rfl, rfl⟩
      · intro p hp
        cases hp
    · refine ⟨?_, ?_, ?_⟩
      · rw [errOk]
        simp [finishedRec, runningRec, herr]
      · intro e' he'
        cases he'
      · intro p' hp'
        cases hp'
        exact ⟨rfl, herr⟩
  · intro auto_cleanup failSet retention st files job_id pipeline t1 t2 now
      st' files' hall hdeq hiter e he
    rw [workerIteration] at hiter
    rcases hl : lookupJob job_id st.jobs with _ | job
    · rw [hl] at hiter
      cases hiter
    · rw [hl] at hiter
      have hst' : st'.jobs =
          (_cleanup_jobs auto_cleanup failSet retention now
            (updateJob job_id (finishedRec job pipeline t1 t2) st.jobs) files).1 := by
        cases hiter
        rfl
      rw [hst'] at he
      have hmem := cleanup_fold_mem_subset auto_cleanup failSet _ _ e he
      rcases updateJob_mem job_id (finishedRec job pipeline t1 t2) st.jobs e hmem with
        hfin | hold
    -- the processed job: its terminal record satisfies the invariant
      · rw [hfin]
        rcases pipeline with err | p
        · rw [errOk]
          simp [finishedRec, runningRec]
        · rw [errOk]
          simp [finishedRec, runningRec, hdeq job hl]
      · exact hall e hold

/-- Witness for C5: the failing branch records the error text, and a full
worker iteration on a one-job table preserves the invariant. -/
theorem C5_error_iff_failed_witness :
    ((finishedRec (_make_job
        { template_name := "demo.glabels", data := [[("A", "1")]], copies := 1 }
        "j1" "demo.pdf" 0) (.error "boom") 1 2).status = .failed
      ∧ (finishedRec (_make_job
        { template_name := "demo.glabels", data := [[("A", "1")]], copies := 1 }
        "j1" "demo.pdf" 0) (.error "boom") 1 2).error = some "boom")
    ∧ (∀ e ∈ (_cleanup_jobs true [] 24 3
        (updateJob "j1"
          (finishedRec (_make_job
            { template_name := "demo.glabels", data := [[("A", "1")]], copies := 1 }
            "j1" "demo.pdf" 0) (.error "boom") 1 2)
          [("j1", _make_job
            { template_name := "demo.glabels", data := [[("A", "1")]], copies := 1 }
            "j1" "demo.pdf" 0)]) []).1, errOk e.2) := by
  constructor
  · exact ((C5_error_iff_failed.2.2.1 (_make_job
      { template_name := "demo.glabels", data := [[("A", "1")]], copies := 1 }
      "j1" "demo.pdf" 0) (.error "boom") 1 2 rfl).2.1 "boom" rfl)
  · exact C5_error_iff_failed.2.2.2 true [] 24
      { jobs := [("j1", _make_job
          { template_name := "demo.glabels", data := [[("A", "1")]], copies := 1 }
          "j1" "demo.pdf" 0)], queue := [], jobs_total := 1 }
      [] "j1" (.error "boom") 1 2 3
      { jobs := (_cleanup_jobs true [] 24 3
          (updateJob "j1"
            (finishedRec (_make_job
              { template_name := "demo.glabels", data := [[("A", "1")]], copies := 1 }
              "j1" "demo.pdf" 0) (.error "boom") 1 2)
            [("j1", _make_job
              { template_name := "demo.glabels", data := [[("A", "1")]], copies := 1 }
              "j1" "demo.pdf" 0)]) []).1,
        queue := [], jobs_total := 1 }
      (_cleanup_jobs true [] 24 3
          (updateJob "j1"
            (finishedRec (_make_job
              { template_name := "demo.glabels", data := [[("A", "1")]], copies := 1 }
              "j1" "demo.pdf" 0) (.error "boom") 1 2)
            [("j1", _make_job
              { template_name := "demo.glabels", data := [[("A", "1")]], copies := 1 }
              "j1" "demo.pdf" 0)]) []).2
      (by intro e he; rcases List.mem_singleton.mp he with rfl; rw [errOk]; simp [_make_job])
      (by intro j hj; rw [lookupJob, if_pos rfl] at hj; cases hj; rfl)
      rfl

/-! ## Claim C1 -/

/-- C1 is violated by the code: for a dequeued job whose pipeline succeeds —
`generate_pdf` here returns the realized output path
`output/demo_20250919_123456.pdf` — the worker marks the job `done`, but the
resulting record holds no output path: the `generate_pdf` return value is
discarded by `_worker`, `error` stays null, and the `output_file` key that
`_cleanup_jobs`'s output-file cleanup reads is still absent from the record. -/
theorem C1_done_record_lacks_output_path :
    generate_pdf ["demo.glabels"] "demo.glabels" [[("A", "1")]]
        "demo_20250919_123456.pdf" none (.ok ())
      = .ok "output/demo_20250919_123456.pdf"
    ∧ (workerIteration true [] 24
        { jobs := [("j1", _make_job
            { template_name := "demo.glabels", data := [[("A", "1")]], copies := 1 }
            "j1" "demo_20250919_123456.pdf" 100)],
          queue := [], jobs_total := 1 } [] "j1"
        (generate_pdf ["demo.glabels"] "demo.glabels" [[("A", "1")]]
          "demo_20250919_123456.pdf" none (.ok ())) 101 102 103).map
        (fun r => (lookupJob "j1" r.1.jobs).map
          (fun j => (j.status, j.output_file, j.error)))
      = some (some (.done, none, none)) := by
  constructor
  · rfl
  · decide

/-! ## Claim C3 -/

/-- C3 is violated by the code: `_worker` catches exceptions only around the
`generate_pdf` call and (at loop level) `asyncio.CancelledError`, so a fault
between dequeueing an item and invoking the pipeline — here the `KeyError`
from `self.jobs[job_id]` — escapes the loop and kills the worker task, and the
job is never resolved to `failed`. The fault is reachable: two jobs are
submitted at time 0 with retention window 10; both ids are queued exactly
once; the worker finishes `j1` at time 100 and the opportunistic sweep removes
the still-queued pending `j2` from the table; the iteration that then dequeues
`j2` crashes (`none`) instead of marking it `failed`. -/
theorem C3_worker_crash_on_swept_job :
    ((submit_job (submit_job initState
        { template_name := "demo.glabels", data := [[("A", "1")]], copies := 1 }
        "j1" "ts" 0).1
        { template_name := "demo.glabels", data := [[("A", "1")]], copies := 1 }
        "j2" "ts" 0).1.queue.map (fun q => q.1) = ["j1", "j2"])
    ∧ (workerIteration true [] 10 (submit_job (submit_job initState
        { template_name := "demo.glabels", data := [[("A", "1")]], copies := 1 }
        "j1" "ts" 0).1
        { template_name := "demo.glabels", data := [[("A", "1")]], copies := 1 }
        "j2" "ts" 0).1 [] "j1" (.ok "output/a.pdf") 100 100 100).map
        (fun r => lookupJob "j2" r.1.jobs)
      = some none
    ∧ (workerIteration true [] 10 (submit_job (submit_job initState
        { template_name := "demo.glabels", data := [[("A", "1")]], copies := 1 }
        "j1" "ts" 0).1
        { template_name := "demo.glabels", data := [[("A", "1")]], copies := 1 }
        "j2" "ts" 0).1 [] "j1" (.ok "output/a.pdf") 100 100 100).bind
        (fun r => workerIteration true [] 10 r.1 r.2 "j2"
          (.ok "output/b.pdf") 100 100 100)
      = none := by
  refine ⟨?_, ?_, ?_⟩
  · decide
  · decide
  · decide

end LabelsService
